import Mathlib

/-!
Verification of the task-overlay-app core against its specification.

Shallow embedding of the program's core modules:

- `EventBus`   : src/core/event-bus.js (a thin wrapper over Node's
  `EventEmitter`; `publish` delegates to `emit`, which invokes the
  subscribers of one event name synchronously, in subscription order,
  and lets a subscriber's exception propagate out of `emit`).
- `Pomodoro`   : src/core/pomodoro-service.js (work/break countdown
  state machine; `_tick` decrements and fires completion at zero).
- `Todoist`    : src/core/todoist-service.js (in-memory task list and
  cursor; response handlers of `fetchTasks` and `completeTask`).
- `ThemeMgr`   : src/ui/theme-manager.js (theme registry, single
  active-theme pointer, lifecycle calls, per-theme settings).

JS objects holding settings are modelled as association lists with
integer values; a JS call that may `throw` is modelled by a boolean
outcome flag carried by the module under call, and each operation
returns, besides the new state, the trace of observable calls or
published events it produced.
-/

namespace TaskOverlay

/-! ## Event Bus (src/core/event-bus.js) -/

namespace EventBus

/-- Subscriber of one event name: an identifier plus whether invoking the
handler throws an exception. -/
structure Handler where
  hid : Nat
  throwsOnCall : Bool
deriving DecidableEq

/-- Embedding of `EventEmitter.emit` as used by `EventBus.publish`:
invoke each current subscriber of the event name in subscription order;
a handler that throws stops the loop and the exception escapes `emit`.
Returns the identifiers of the handlers that were invoked and whether the
publish completed normally (`true`) or an exception escaped (`false`). -/
def emitRun : List Handler → List Nat × Bool
  | [] => ([], true)
  | h :: hs =>
    if h.throwsOnCall then ([h.hid], false)
    else
      let r := emitRun hs
      (h.hid :: r.1, r.2)

/-- Embedding of `EventBus.publish(eventName, data)` restricted to the
subscriber list of the published event name: it logs and calls
`this.emit(eventName, data)`. -/
def publish (subscribers : List Handler) : List Nat × Bool :=
  emitRun subscribers

end EventBus

/-! ## Interval Timer Service (src/core/pomodoro-service.js) -/

namespace Pomodoro

/-- Embedding of `this.state` of `PomodoroService`: `timeRemaining` is in
seconds, `workTime` and `breakTime` in minutes.  `projectTaskMemory` maps a
project id to the last task index. -/
structure PomState where
  isActive : Bool
  isBreak : Bool
  timeRemaining : Int
  workTime : Int
  breakTime : Int
  workProjectId : Option String
  breakProjectId : Option String
  projectTaskMemory : List (String × Int)
deriving DecidableEq

/-- Events published by the service on the event bus; payloads that are
`this.getState()` copies carry the `PomState`. -/
inductive PomEvent where
  | timerStarted (s : PomState)
  | timerPaused (s : PomState)
  | timerReset (s : PomState)
  | timerTick (s : PomState)
  | timerCompleted (wasBreak : Bool) (nextMode : String)
  | breakStarted (s : PomState)
  | workStarted (s : PomState)
  | settingsChanged (s : PomState)
deriving DecidableEq

/-- The service: its state object plus whether `this.timerInterval` holds a
scheduled interval. -/
structure Service where
  state : PomState
  timerInterval : Bool
deriving DecidableEq

/-- Embedding of `start()`: no-op when already active, otherwise set
`isActive`, schedule the interval and publish `TIMER_STARTED`. -/
def start (p : Service) : Service × List PomEvent :=
  if p.state.isActive then (p, [])
  else
    let st := { p.state with isActive := true }
    ({ state := st, timerInterval := true }, [.timerStarted st])

/-- Embedding of `pause()`: no-op when not active, otherwise clear the
interval and publish `TIMER_PAUSED`. -/
def pause (p : Service) : Service × List PomEvent :=
  if p.state.isActive then
    let st := { p.state with isActive := false }
    ({ state := st, timerInterval := false }, [.timerPaused st])
  else (p, [])

/-- Embedding of `reset()`: clear the interval, set `isActive := false`,
`isBreak := false`, `timeRemaining := workTime * 60`, publish
`TIMER_RESET`. -/
def reset (p : Service) : Service × List PomEvent :=
  let st := { p.state with
    isActive := false
    isBreak := false
    timeRemaining := p.state.workTime * 60 }
  ({ state := st, timerInterval := false }, [.timerReset st])

/-- Embedding of `setWorkTime(minutes)`: reject values outside `[1, 60]`;
otherwise set `workTime` and, when in idle work mode, refresh
`timeRemaining`; publish `SETTINGS_CHANGED` with the state copy. -/
def setWorkTime (minutes : Int) (p : Service) : Service × List PomEvent :=
  if minutes < 1 ∨ minutes > 60 then (p, [])
  else
    let st1 := { p.state with workTime := minutes }
    let st2 :=
      if !st1.isBreak && !st1.isActive then
        { st1 with timeRemaining := minutes * 60 }
      else st1
    ({ p with state := st2 }, [.settingsChanged st2])

/-- Embedding of `setBreakTime(minutes)`. -/
def setBreakTime (minutes : Int) (p : Service) : Service × List PomEvent :=
  if minutes < 1 ∨ minutes > 60 then (p, [])
  else
    let st1 := { p.state with breakTime := minutes }
    let st2 :=
      if st1.isBreak && !st1.isActive then
        { st1 with timeRemaining := minutes * 60 }
      else st1
    ({ p with state := st2 }, [.settingsChanged st2])

/-- Embedding of `_handleTimerComplete()`: clear the interval, publish
`TIMER_COMPLETED {wasBreak, nextMode}`, toggle `isBreak`, reset
`timeRemaining` to the entered phase's minutes times 60, publish
`BREAK_STARTED` or `WORK_STARTED` with the state copy, then call
`start()` (which is a no-op because `isActive` is still set). -/
def handleTimerComplete (p : Service) : Service × List PomEvent :=
  let p1 : Service := { p with timerInterval := false }
  let e1 := PomEvent.timerCompleted p1.state.isBreak
    (if !p1.state.isBreak then "break" else "work")
  let st2 := { p1.state with isBreak := !p1.state.isBreak }
  let st3 := { st2 with
    timeRemaining := if st2.isBreak then st2.breakTime * 60 else st2.workTime * 60 }
  let e2 := if st3.isBreak then PomEvent.breakStarted st3 else PomEvent.workStarted st3
  let p2 : Service := { state := st3, timerInterval := false }
  let r := start p2
  (r.1, e1 :: e2 :: r.2)

/-- Embedding of `_tick()`: return if not active; decrement
`timeRemaining`, publish `TIMER_TICK`, and when `timeRemaining <= 0` run
`_handleTimerComplete`. -/
def tick (p : Service) : Service × List PomEvent :=
  if !p.state.isActive then (p, [])
  else
    let st := { p.state with timeRemaining := p.state.timeRemaining - 1 }
    let p1 : Service := { p with state := st }
    if st.timeRemaining ≤ 0 then
      let r := handleTimerComplete p1
      (r.1, PomEvent.timerTick st :: r.2)
    else (p1, [PomEvent.timerTick st])

/-- Run `n` one-second ticks of the interval scheduler, collecting the
published events in order. -/
def ticks : Nat → Service → Service × List PomEvent
  | 0, p => (p, [])
  | n + 1, p =>
    let r := tick p
    let r2 := ticks n r.1
    (r2.1, r.2 ++ r2.2)

/-- State of the service as built by the constructor plus `loadSettings()`
with the default persisted settings (`workTime` 25, `breakTime` 5):
inactive, work mode, `timeRemaining = 25 * 60`. -/
def initialService : Service :=
  { state :=
      { isActive := false
        isBreak := false
        timeRemaining := 25 * 60
        workTime := 25
        breakTime := 5
        workProjectId := none
        breakProjectId := none
        projectTaskMemory := [] }
    timerInterval := false }

/-- Recognizer for `TIMER_COMPLETED` events. -/
def isCompleted : PomEvent → Bool
  | .timerCompleted _ _ => true
  | _ => false

/-- The spec's example scenario: `setWorkTime(25)`, `start()`, then 1500
one-second ticks with no pause; the second component is the full ordered
event trace. -/
def scenarioRun : Service × List PomEvent :=
  let r1 := setWorkTime 25 initialService
  let r2 := start r1.1
  let r3 := ticks 1500 r2.1
  (r3.1, r1.2 ++ r2.2 ++ r3.2)

end Pomodoro

/-! ## Task Source Service (src/core/todoist-service.js) -/

namespace Todoist

/-- Embedding of the task-related state of `TodoistService`: `tasks` holds
the task contents, `taskIds` the corresponding ids, `currentTaskIndex` the
cursor. -/
structure St where
  tasks : List String
  taskIds : List String
  selectedProjectId : Option String
  currentTaskIndex : Nat
deriving DecidableEq

/-- Events the service publishes on the event bus (payload fields that the
claims inspect). -/
inductive TodoEvent where
  | tasksLoaded (tasks taskIds : List String) (currentTaskIndex : Nat)
      (currentTask : Option (Option String × Option String))
  | taskCompleted (taskId : String)
  | apiError (code : String)
deriving DecidableEq

/-- Embedding of `getCurrentTask()`: `null` when the list is empty,
otherwise `{content: tasks[i], id: taskIds[i]}`, where an out-of-range
index yields the JS `undefined` (here `none`). -/
def getCurrentTask (s : St) : Option (Option String × Option String) :=
  if s.tasks.length = 0 then none
  else some (s.tasks.get? s.currentTaskIndex, s.taskIds.get? s.currentTaskIndex)

/-- Embedding of `nextTask()`: `null` on an empty list, otherwise advance
the cursor modulo the length and publish `TASKS_LOADED`. -/
def nextTask (s : St) : St × List TodoEvent :=
  if s.tasks.length = 0 then (s, [])
  else
    let s1 := { s with currentTaskIndex := (s.currentTaskIndex + 1) % s.tasks.length }
    (s1, [.tasksLoaded s1.tasks s1.taskIds s1.currentTaskIndex (getCurrentTask s1)])

/-- A task object of the Todoist REST response. -/
structure FetchedTask where
  content : String
  id : String
deriving DecidableEq

/-- Embedding of the status-200 branch of the `fetchTasks()` response
handler: replace `tasks`/`taskIds` wholesale from the fetched list, reset
the cursor to 0 when it is `>=` the new length, publish `TASKS_LOADED`. -/
def fetchTasksOnSuccess (fetched : List FetchedTask) (s : St) : St × List TodoEvent :=
  let s1 := { s with
    tasks := fetched.map FetchedTask.content
    taskIds := fetched.map FetchedTask.id }
  let s2 :=
    if s1.currentTaskIndex ≥ s1.tasks.length then { s1 with currentTaskIndex := 0 }
    else s1
  (s2, [.tasksLoaded s2.tasks s2.taskIds s2.currentTaskIndex (getCurrentTask s2)])

/-- Embedding of the non-200 / parse-error / network-error branches of the
`fetchTasks()` response handler: empty the two lists (the cursor is left
untouched), publish `API_ERROR` and an empty `TASKS_LOADED`. -/
def fetchTasksOnError (code : String) (s : St) : St × List TodoEvent :=
  let s1 := { s with tasks := [], taskIds := [] }
  (s1, [.apiError code, .tasksLoaded [] [] 0 none])

/-- Embedding of the status-204 branch of the `completeTask(taskId)`
response handler: look the id up with `indexOf`; when absent do nothing;
otherwise splice the entry out of both lists, reset the cursor to 0 when
it is `>=` the new length, publish `TASK_COMPLETED` then `TASKS_LOADED`. -/
def completeTaskOn204 (taskId : String) (s : St) : St × List TodoEvent :=
  match s.taskIds.findIdx? (fun x => x = taskId) with
  | none => (s, [])
  | some index =>
    let s1 := { s with
      taskIds := s.taskIds.eraseIdx index
      tasks := s.tasks.eraseIdx index }
    let s2 :=
      if s1.currentTaskIndex ≥ s1.tasks.length then { s1 with currentTaskIndex := 0 }
      else s1
    (s2, [.taskCompleted taskId,
          .tasksLoaded s2.tasks s2.taskIds s2.currentTaskIndex (getCurrentTask s2)])

/-- The cursor invariant of the data model: when the in-memory list is
non-empty, `0 <= currentTaskIndex < tasks.length` (the lower bound is
intrinsic to `Nat`). -/
def CursorInv (s : St) : Prop :=
  s.tasks ≠ [] → s.currentTaskIndex < s.tasks.length

instance (s : St) : Decidable (CursorInv s) := by
  unfold CursorInv; infer_instance

/-- The Task Source Service operations of claim C8, as one step type. -/
inductive Op where
  | next
  | fetchOk (fetched : List FetchedTask)
  | fetchErr (code : String)
  | complete (taskId : String)

/-- Run one operation, dropping the event trace. -/
def stepOp (o : Op) (s : St) : St :=
  match o with
  | .next => (nextTask s).1
  | .fetchOk fetched => (fetchTasksOnSuccess fetched s).1
  | .fetchErr code => (fetchTasksOnError code s).1
  | .complete taskId => (completeTaskOn204 taskId s).1

/-- Run a sequence of operations. -/
def runOps : List Op → St → St
  | [], s => s
  | o :: os, s => runOps os (stepOp o s)

end Todoist

/-! ## Theme Registry & Coordinator (src/ui/theme-manager.js) -/

namespace ThemeMgr

/-- Settings objects (`defaultSettings`, persisted patches, merged reads)
are JS objects; modelled as association lists from keys to integer
values, unique keys, first binding found by lookup. -/
abbrev SettingsMap := List (String × Int)

/-- JS property read `m[k]` on a settings object. -/
def objGet (m : SettingsMap) (k : String) : Option Int :=
  (List.find? (fun p => p.1 = k) m).map Prod.snd

/-- JS object spread `{...a, ...b}`: every key of `b` with `b`'s value,
every key of `a` not in `b` with `a`'s value. -/
def spread (a b : SettingsMap) : SettingsMap :=
  List.filter (fun p => !(List.any b (fun q => q.1 = p.1))) a ++ b

/-- A theme's main-process module: which of the duck-typed methods exist
(`typeof module.x === 'function'`), and whether each call completes
without throwing. -/
structure MainModule where
  hasInitialize : Bool
  hasActivate : Bool
  hasDeactivate : Bool
  hasUpdateSettings : Bool
  initializeOk : Bool
  activateOk : Bool
  deactivateOk : Bool
  updateSettingsOk : Bool
deriving DecidableEq

/-- A theme configuration as passed to `registerTheme`; a missing or
falsy `name`/`displayName` string field is modelled by `""`, a missing
`mainModule` by `none`, a missing `settings` object by `none`. -/
structure ThemeConfig where
  name : String
  displayName : String
  description : String
  rendererPath : String
  mainModule : Option MainModule
  settings : Option SettingsMap
deriving DecidableEq

/-- The per-theme record stored in `this.themes` on registration. -/
structure ThemeData where
  name : String
  displayName : String
  description : String
  rendererPath : String
  mainModule : MainModule
  settings : SettingsMap
deriving DecidableEq

/-- The `theme` slice of the settings store: `theme.currentTheme` and the
per-theme persisted settings object `theme.themeSettings`. -/
structure SettingsStore where
  currentTheme : Option String
  themeSettings : List (String × SettingsMap)
deriving DecidableEq

/-- Lookup in a `Map` / keyed object, first (unique) binding. -/
def mapGet {α : Type} (m : List (String × α)) (k : String) : Option α :=
  (List.find? (fun p => p.1 = k) m).map Prod.snd

/-- Membership test (`Map.prototype.has`). -/
def mapHas {α : Type} (m : List (String × α)) (k : String) : Bool :=
  (mapGet m k).isSome

/-- Keyed update (`store.set('theme.themeSettings.<name>', v)`): replace
the binding when present, append it otherwise. -/
def mapSet {α : Type} (m : List (String × α)) (k : String) (v : α) :
    List (String × α) :=
  if mapHas m k then
    m.map (fun p => if p.1 = k then (k, v) else p)
  else m ++ [(k, v)]

/-- State of the `ThemeManager`: the registry map in insertion order, the
active-theme pointer, and the settings store slice it reads and writes. -/
structure TMState where
  themes : List (String × ThemeData)
  activeTheme : Option ThemeData
  store : SettingsStore
deriving DecidableEq

/-- Observable lifecycle calls made on theme main modules. -/
inductive LifeEvent where
  | initializeCall (name : String)
  | activateCall (name : String)
  | deactivateCall (name : String)
  | updateSettingsCall (name : String)
deriving DecidableEq

/-- Embedding of `_validateThemeConfig(config)`: require truthy `name`
and `displayName`, a `mainModule` object, and function-typed
`initialize`, `activate`, `deactivate` on it. -/
def validateThemeConfig (c : ThemeConfig) : Bool :=
  match c.mainModule with
  | none => false
  | some m =>
    decide (c.name ≠ "") && decide (c.displayName ≠ "") &&
      m.hasInitialize && m.hasActivate && m.hasDeactivate

/-- The record stored in `this.themes` by `registerTheme` for a config
whose main module is `m` (`settings := themeConfig.settings || {}`). -/
def themeDataOf (c : ThemeConfig) (m : MainModule) : ThemeData :=
  { name := c.name
    displayName := c.displayName
    description := c.description
    rendererPath := c.rendererPath
    mainModule := m
    settings := c.settings.getD [] }

/-- Embedding of `registerTheme(themeConfig)`: reject an invalid config,
reject an already-registered name, call the module's `initialize` (a
throw is caught and reported as `false`), and on success store the
`ThemeData`. -/
def registerTheme (c : ThemeConfig) (s : TMState) :
    TMState × List LifeEvent × Bool :=
  if validateThemeConfig c then
    if mapHas s.themes c.name then (s, [], false)
    else
      match c.mainModule with
      | none => (s, [], false)
      | some m =>
        if m.initializeOk then
          ({ s with themes := s.themes ++ [(c.name, themeDataOf c m)] },
           [.initializeCall c.name], true)
        else (s, [.initializeCall c.name], false)
  else (s, [], false)

/-- Embedding of `deactivateTheme()`: success `true` when nothing is
active; otherwise call the active module's `deactivate` — on normal
completion clear `this.activeTheme` and return `true`, and when the call
throws, the `catch` block only logs and returns `false`, leaving
`this.activeTheme` untouched. -/
def deactivateTheme (s : TMState) : TMState × List LifeEvent × Bool :=
  match s.activeTheme with
  | none => (s, [], true)
  | some td =>
    if td.mainModule.deactivateOk then
      ({ s with activeTheme := none }, [.deactivateCall td.name], true)
    else
      (s, [.deactivateCall td.name], false)

/-- Embedding of `activateTheme(themeName)`: fail when the name is not
registered; otherwise, when a theme is active, run `deactivateTheme()`
first (its result is ignored); then call the target module's `activate`
— on normal completion set the active pointer, persist the current theme
name, notify the renderer (pure I/O) and return `true`; when `activate`
throws, the `catch` returns `false` with no further state change. -/
def activateTheme (themeName : String) (s : TMState) :
    TMState × List LifeEvent × Bool :=
  match mapGet s.themes themeName with
  | none => (s, [], false)
  | some td =>
    let r1 := if s.activeTheme.isSome then deactivateTheme s else (s, [], true)
    let s1 := r1.1
    if td.mainModule.activateOk then
      ({ s1 with
          activeTheme := some td
          store := { s1.store with currentTheme := some themeName } },
       r1.2.1 ++ [.activateCall themeName], true)
    else
      (s1, r1.2.1 ++ [.activateCall themeName], false)

/-- Embedding of `getThemeSettings(themeName)`: resolve the named theme
(or the active one when the argument is omitted/falsy); `{}` when not
found; otherwise the saved per-theme settings spread over the theme's
compiled defaults: `{...theme.settings, ...savedSettings}`. -/
def getThemeSettings (themeName : Option String) (s : TMState) : SettingsMap :=
  let theme :=
    match themeName with
    | some n => mapGet s.themes n
    | none => s.activeTheme
  match theme with
  | none => []
  | some td =>
    let savedSettings := (mapGet s.store.themeSettings td.name).getD []
    spread td.settings savedSettings

/-- Embedding of `updateThemeSettings(themeName, settings)`: resolve the
name (falling back to the active theme), fail when not registered;
persist the patch wholesale under `theme.themeSettings.<name>`; call the
module's `updateSettings` hook when present (a throw is caught and
reported as `false`, the persisted write stays); notify the renderer
(pure I/O) when the theme is active; return `true`. -/
def updateThemeSettings (themeName : Option String) (settings : SettingsMap)
    (s : TMState) : TMState × List LifeEvent × Bool :=
  let name :=
    match themeName with
    | some n => some n
    | none => s.activeTheme.map ThemeData.name
  match name with
  | none => (s, [], false)
  | some n =>
    match mapGet s.themes n with
    | none => (s, [], false)
    | some td =>
      let s1 := { s with store :=
        { s.store with themeSettings := mapSet s.store.themeSettings n settings } }
      if td.mainModule.hasUpdateSettings then
        if td.mainModule.updateSettingsOk then
          (s1, [.updateSettingsCall n], true)
        else
          (s1, [.updateSettingsCall n], false)
      else (s1, [], true)

/-- A theme name is Active in a state when the active-theme pointer holds
a descriptor bearing that name. -/
def isActiveName (s : TMState) (n : String) : Prop :=
  ∃ td, s.activeTheme = some td ∧ td.name = n

/-- Number of registry entries stored under a name. -/
def countKey (m : List (String × ThemeData)) (k : String) : Nat :=
  (m.filter (fun p => p.1 = k)).length

/-! ### Concrete fixtures used to evaluate the theorems on closed inputs -/

/-- A module whose every lifecycle call completes normally. -/
def modOk : MainModule :=
  { hasInitialize := true, hasActivate := true, hasDeactivate := true
    hasUpdateSettings := true, initializeOk := true, activateOk := true
    deactivateOk := true, updateSettingsOk := true }

/-- A module whose `activate` throws. -/
def modThrowOnActivate : MainModule :=
  { modOk with activateOk := false }

/-- A module whose `deactivate` throws. -/
def modThrowOnDeactivate : MainModule :=
  { modOk with deactivateOk := false }

/-- A registered well-behaved theme with two compiled default settings. -/
def tdA : ThemeData :=
  { name := "a", displayName := "A", description := "", rendererPath := ""
    mainModule := modOk, settings := [("x", 0), ("y", 7)] }

/-- A second registered well-behaved theme. -/
def tdB : ThemeData :=
  { name := "b", displayName := "B", description := "", rendererPath := ""
    mainModule := modOk, settings := [] }

/-- A registered theme whose `activate` throws. -/
def tdBadActivate : ThemeData :=
  { name := "b", displayName := "B", description := "", rendererPath := ""
    mainModule := modThrowOnActivate, settings := [] }

/-- A registered theme whose `deactivate` throws. -/
def tdBadDeactivate : ThemeData :=
  { name := "t", displayName := "T", description := "", rendererPath := ""
    mainModule := modThrowOnDeactivate, settings := [] }

/-- Manager state with themes `a` and `b` registered, none active. -/
def freshState : TMState :=
  { themes := [("a", tdA), ("b", tdB)], activeTheme := none
    store := { currentTheme := none, themeSettings := [] } }

/-- Manager state whose active theme's `deactivate` throws. -/
def stuckState : TMState :=
  { themes := [("t", tdBadDeactivate)], activeTheme := some tdBadDeactivate
    store := { currentTheme := some "t", themeSettings := [] } }

/-- Manager state with `a` active and a theme `b` whose `activate`
throws. -/
def failActState : TMState :=
  { themes := [("a", tdA), ("b", tdBadActivate)], activeTheme := some tdA
    store := { currentTheme := some "a", themeSettings := [] } }

/-- Manager state with no themes registered. -/
def emptyTM : TMState :=
  { themes := [], activeTheme := none
    store := { currentTheme := none, themeSettings := [] } }

/-- A valid theme configuration. -/
def validCfg : ThemeConfig :=
  { name := "a", displayName := "A", description := "d", rendererPath := "p"
    mainModule := some modOk, settings := some [("x", 0)] }

end ThemeMgr

/-! ## Theorems -/

/-- Claim C5: after any call to the Interval Timer Service's `reset()`,
regardless of the prior timer state, the timer state satisfies
`timeRemaining = workTime * 60`, `isActive = false` and
`isBreak = false`. -/
theorem reset_establishes_defaults (p : Pomodoro.Service) :
    (Pomodoro.reset p).1.state.timeRemaining =
      (Pomodoro.reset p).1.state.workTime * 60 ∧
    (Pomodoro.reset p).1.state.isActive = false ∧
    (Pomodoro.reset p).1.state.isBreak = false := by
  refine ⟨?_, rfl, rfl⟩
  simp [Pomodoro.reset]

/-- Claim C4, counterexample: with two subscribers of the same event name
where the first one's handler throws, `publish` invokes only the first
handler — the second subscriber of the same publish is never invoked, and
the exception escapes the publish call. -/
theorem publish_throw_skips_later_subscriber :
    (EventBus.publish [⟨0, true⟩, ⟨1, false⟩]).1 = [0] ∧
    1 ∉ (EventBus.publish [⟨0, true⟩, ⟨1, false⟩]).1 ∧
    (EventBus.publish [⟨0, true⟩, ⟨1, false⟩]).2 = false := by
  decide

/-- Claim C4, amended: `publish` invokes, in order, exactly the
subscribers preceding the first throwing handler plus that throwing
handler itself; the exception propagates out of the publish (it completes
normally exactly when no subscriber throws), so subscribers after the
first throwing one are not invoked. -/
theorem publish_stops_at_first_throw (subscribers : List EventBus.Handler) :
    EventBus.publish subscribers =
      ((subscribers.takeWhile (fun h => !h.throwsOnCall)).map EventBus.Handler.hid ++
        ((subscribers.dropWhile (fun h => !h.throwsOnCall)).head?.toList.map
          EventBus.Handler.hid),
       subscribers.all (fun h => !h.throwsOnCall)) := by
  unfold EventBus.publish
  induction subscribers with
  | nil => rfl
  | cons h hs ih =>
    by_cases hc : h.throwsOnCall = true
    · simp [EventBus.emitRun, hc, List.takeWhile_cons, List.dropWhile_cons]
    · simp only [Bool.not_eq_true] at hc
      simp [EventBus.emitRun, hc, List.takeWhile_cons, List.dropWhile_cons, ih]

/-- Claim C10: when `completeTask` receives a 204 response for a task id
that is not in the in-memory id list, the task list, the id list and the
cursor are left unchanged and no event is published by that call. -/
theorem completeTask_unknown_id_frame (s : Todoist.St) (taskId : String)
    (h : taskId ∉ s.taskIds) :
    Todoist.completeTaskOn204 taskId s = (s, []) := by
  unfold Todoist.completeTaskOn204
  have hnone : s.taskIds.findIdx? (fun x => x = taskId) = none := by
    rw [List.findIdx?_eq_none_iff]
    intro x hx
    simp only [decide_eq_false_iff_not]
    intro hEq
    exact h (hEq ▸ hx)
  rw [hnone]

/-- Witness for claim C10 at a concrete input. -/
theorem completeTask_unknown_id_frame_witness :
    Todoist.completeTaskOn204 "z" ⟨["t1"], ["i1"], none, 0⟩ =
      (⟨["t1"], ["i1"], none, 0⟩, []) :=
  completeTask_unknown_id_frame ⟨["t1"], ["i1"], none, 0⟩ "z" (by decide)

/-- Helper: `nextTask` preserves the cursor invariant. -/
theorem nextTask_cursorInv (s : Todoist.St) (h : Todoist.CursorInv s) :
    Todoist.CursorInv (Todoist.nextTask s).1 := by
  unfold Todoist.nextTask
  by_cases h0 : s.tasks.length = 0
  · simpa [h0] using h
  · simp only [h0, if_neg]
    intro _
    exact Nat.mod_lt _ (Nat.pos_of_ne_zero h0)

/-- Helper: the success handler of `fetchTasks` establishes the cursor
invariant for any fetched list. -/
theorem fetchOk_cursorInv (fetched : List Todoist.FetchedTask) (s : Todoist.St) :
    Todoist.CursorInv (Todoist.fetchTasksOnSuccess fetched s).1 := by
  unfold Todoist.fetchTasksOnSuccess Todoist.CursorInv
  dsimp only
  by_cases hc : s.currentTaskIndex ≥ (fetched.map Todoist.FetchedTask.content).length
  · simp only [hc, if_pos]
    intro hne
    simpa using List.length_pos.mpr hne
  · rw [if_neg hc]
    intro _
    show s.currentTaskIndex < (fetched.map Todoist.FetchedTask.content).length
    omega

/-- Helper: the error handler of `fetchTasks` leaves an empty list, so the
cursor invariant holds vacuously. -/
theorem fetchErr_cursorInv (code : String) (s : Todoist.St) :
    Todoist.CursorInv (Todoist.fetchTasksOnError code s).1 := by
  intro hne
  simp [Todoist.fetchTasksOnError] at hne

/-- Helper: the 204 handler of `completeTask` preserves the cursor
invariant. -/
theorem complete_cursorInv (taskId : String) (s : Todoist.St)
    (h : Todoist.CursorInv s) :
    Todoist.CursorInv (Todoist.completeTaskOn204 taskId s).1 := by
  unfold Todoist.completeTaskOn204
  cases hidx : s.taskIds.findIdx? (fun x => x = taskId) with
  | none => simpa using h
  | some index =>
    dsimp only
    by_cases hc : s.currentTaskIndex ≥ (s.tasks.eraseIdx index).length
    · simp only [hc, if_pos]
      intro hne
      simpa using List.length_pos.mpr hne
    · rw [if_neg hc]
      intro _
      show s.currentTaskIndex < (s.tasks.eraseIdx index).length
      omega

/-- Claim C8: over every sequence of Task Source Service operations
(`nextTask`, a completing `fetchTasks`, a completing `completeTask`),
a state satisfying the cursor invariant — the cursor index is within
`[0, length)` whenever the in-memory task list is non-empty — keeps
satisfying it: the list and the cursor mutate together and the index
never points past the end. -/
theorem cursor_invariant_preserved (ops : List Todoist.Op) (s : Todoist.St)
    (h : Todoist.CursorInv s) :
    Todoist.CursorInv (Todoist.runOps ops s) := by
  induction ops generalizing s with
  | nil => exact h
  | cons o os ih =>
    refine ih (Todoist.stepOp o s) ?_
    cases o with
    | next => exact nextTask_cursorInv s h
    | fetchOk fetched => exact fetchOk_cursorInv fetched s
    | fetchErr code => exact fetchErr_cursorInv code s
    | complete taskId => exact complete_cursorInv taskId s h

/-- Witness for claim C8 at a concrete input: fetch two tasks, advance the
cursor, complete one task. -/
theorem cursor_invariant_preserved_witness :
    Todoist.CursorInv
      (Todoist.runOps
        [Todoist.Op.fetchOk [⟨"t1", "i1"⟩, ⟨"t2", "i2"⟩], Todoist.Op.next,
         Todoist.Op.complete "i1", Todoist.Op.fetchErr "E"]
        ⟨[], [], none, 0⟩) :=
  cursor_invariant_preserved
    [Todoist.Op.fetchOk [⟨"t1", "i1"⟩, ⟨"t2", "i2"⟩], Todoist.Op.next,
     Todoist.Op.complete "i1", Todoist.Op.fetchErr "E"]
    ⟨[], [], none, 0⟩ (by decide)

/-- Claim C2, counterexample: in a state whose active theme's own
`deactivate` throws, `deactivateTheme` reports failure but the Active
Theme Pointer is not cleared — it is left pointing at the failed theme,
because `this.activeTheme = null` sits after the `await` inside the
`try` block and the `catch` only logs and returns `false`. -/
theorem deactivate_throw_pointer_not_cleared :
    ThemeMgr.stuckState.activeTheme = some ThemeMgr.tdBadDeactivate ∧
    ThemeMgr.tdBadDeactivate.mainModule.deactivateOk = false ∧
    (ThemeMgr.deactivateTheme ThemeMgr.stuckState).2.2 = false ∧
    (ThemeMgr.deactivateTheme ThemeMgr.stuckState).1.activeTheme ≠ none := by
  decide

/-- Claim C2, amended: `deactivate()` succeeds as a no-op when no theme is
Active; otherwise it calls the active theme's `deactivate` — on success it
clears the Active Theme Pointer, and when the theme's own deactivation
throws it reports failure and leaves the Active Theme Pointer unchanged,
still pointing at the failed theme. -/
theorem deactivateTheme_pointer_behaviour (s : ThemeMgr.TMState) :
    (s.activeTheme = none → ThemeMgr.deactivateTheme s = (s, [], true)) ∧
    (∀ td, s.activeTheme = some td → td.mainModule.deactivateOk = true →
      ThemeMgr.deactivateTheme s =
        ({ s with activeTheme := none },
         [ThemeMgr.LifeEvent.deactivateCall td.name], true)) ∧
    (∀ td, s.activeTheme = some td → td.mainModule.deactivateOk = false →
      ThemeMgr.deactivateTheme s =
        (s, [ThemeMgr.LifeEvent.deactivateCall td.name], false)) := by
  refine ⟨?_, ?_, ?_⟩
  · intro h
    simp [ThemeMgr.deactivateTheme, h]
  · intro td h hOk
    simp [ThemeMgr.deactivateTheme, h, hOk]
  · intro td h hOk
    simp [ThemeMgr.deactivateTheme, h, hOk]

/-- Witness for claim C2's amended theorem at concrete inputs. -/
theorem deactivateTheme_pointer_behaviour_witness :
    ThemeMgr.deactivateTheme ThemeMgr.freshState = (ThemeMgr.freshState, [], true) ∧
    ThemeMgr.deactivateTheme ThemeMgr.stuckState =
      (ThemeMgr.stuckState, [ThemeMgr.LifeEvent.deactivateCall "t"], false) :=
  ⟨(deactivateTheme_pointer_behaviour ThemeMgr.freshState).1 rfl,
   (deactivateTheme_pointer_behaviour ThemeMgr.stuckState).2.2
     ThemeMgr.tdBadDeactivate rfl rfl⟩

/-- Claim C3, counterexample: with theme `a` active and a registered theme
`b` whose activation throws, `activateTheme "b"` reports failure but the
Active Theme Pointer afterwards is `null` — not its value from
immediately before the call (`a`), because the previous theme was already
deactivated before the failed activation attempt. -/
theorem activate_failure_pointer_not_restored :
    ThemeMgr.failActState.activeTheme = some ThemeMgr.tdA ∧
    ThemeMgr.tdBadActivate.mainModule.activateOk = false ∧
    (ThemeMgr.activateTheme "b" ThemeMgr.failActState).2.2 = false ∧
    (ThemeMgr.activateTheme "b" ThemeMgr.failActState).1.activeTheme = none ∧
    (ThemeMgr.activateTheme "b" ThemeMgr.failActState).1.activeTheme ≠
      ThemeMgr.failActState.activeTheme := by
  decide

/-- Claim C3, amended: when `activateTheme n` fails because the target
theme's activation throws, the failure is reported to the caller; the
Active Theme Pointer is unchanged only when nothing was active when the
call began — otherwise it holds what deactivating the previous theme left
behind: `none` when the previous theme's `deactivate` succeeded, and the
previous theme itself when its `deactivate` threw. -/
theorem activate_failure_pointer_after (s : ThemeMgr.TMState) (n : String)
    (td : ThemeMgr.ThemeData)
    (hreg : ThemeMgr.mapGet s.themes n = some td)
    (hfail : td.mainModule.activateOk = false) :
    (ThemeMgr.activateTheme n s).2.2 = false ∧
    (s.activeTheme = none → (ThemeMgr.activateTheme n s).1 = s) ∧
    (∀ prev, s.activeTheme = some prev → prev.mainModule.deactivateOk = true →
      (ThemeMgr.activateTheme n s).1.activeTheme = none) ∧
    (∀ prev, s.activeTheme = some prev → prev.mainModule.deactivateOk = false →
      (ThemeMgr.activateTheme n s).1.activeTheme = some prev) := by
  refine ⟨?_, ?_, ?_, ?_⟩
  · unfold ThemeMgr.activateTheme
    rw [hreg]
    simp [hfail]
  · intro h
    unfold ThemeMgr.activateTheme
    rw [hreg]
    simp [hfail, h]
  · intro prev h hOk
    unfold ThemeMgr.activateTheme
    rw [hreg]
    simp [hfail, h, ThemeMgr.deactivateTheme, hOk]
  · intro prev h hOk
    unfold ThemeMgr.activateTheme
    rw [hreg]
    simp [hfail, h, ThemeMgr.deactivateTheme, hOk]

/-- Witness for claim C3's amended theorem at a concrete input. -/
theorem activate_failure_pointer_after_witness :
    (ThemeMgr.activateTheme "b" ThemeMgr.failActState).2.2 = false ∧
    (ThemeMgr.activateTheme "b" ThemeMgr.failActState).1.activeTheme = none := by
  have h := activate_failure_pointer_after ThemeMgr.failActState "b"
    ThemeMgr.tdBadActivate (by decide) rfl
  exact ⟨h.1, h.2.2.1 ThemeMgr.tdA rfl rfl⟩

/-- Helper: a key absent from a keyed map occurs zero times in it. -/
theorem countKey_eq_zero_of_not_has (m : List (String × ThemeMgr.ThemeData))
    (k : String) (h : ThemeMgr.mapHas m k = false) : ThemeMgr.countKey m k = 0 := by
  unfold ThemeMgr.mapHas ThemeMgr.mapGet at h
  unfold ThemeMgr.countKey
  rw [List.length_eq_zero, List.filter_eq_nil_iff]
  intro a ha
  cases hfind : m.find? (fun p => p.1 = k) with
  | none =>
    have := List.find?_eq_none.mp hfind a ha
    simpa using this
  | some v => rw [hfind] at h; simp at h

/-- Helper: a map extended with a key contains that key. -/
theorem mapHas_append_self {α : Type} (m : List (String × α)) (k : String) (v : α) :
    ThemeMgr.mapHas (m ++ [(k, v)]) k = true := by
  unfold ThemeMgr.mapHas ThemeMgr.mapGet
  rw [List.find?_append]
  cases hfind : m.find? (fun p => p.1 = k) <;> simp [Option.or, List.find?_cons]

/-- Claim C7: `registerTheme` returns `false` without throwing when the
descriptor is missing a required field (a truthy `name`, a truthy
`displayName`, a main module exposing `initialize`, `activate` and
`deactivate`) or when the name is already registered; and after a
successful registration a second registration of the same name reports
failure and leaves exactly one registry entry for that name. -/
theorem register_rejects_invalid_and_duplicate (c c2 : ThemeMgr.ThemeConfig)
    (s : ThemeMgr.TMState) :
    (ThemeMgr.validateThemeConfig c = false →
      ThemeMgr.registerTheme c s = (s, [], false)) ∧
    (ThemeMgr.mapHas s.themes c.name = true →
      ThemeMgr.registerTheme c s = (s, [], false)) ∧
    ((ThemeMgr.registerTheme c s).2.2 = true → c2.name = c.name →
      ThemeMgr.countKey (ThemeMgr.registerTheme c s).1.themes c.name = 1 ∧
      ThemeMgr.registerTheme c2 (ThemeMgr.registerTheme c s).1 =
        ((ThemeMgr.registerTheme c s).1, [], false)) := by
  refine ⟨?_, ?_, ?_⟩
  · intro hv
    unfold ThemeMgr.registerTheme
    simp [hv]
  · intro hh
    unfold ThemeMgr.registerTheme
    by_cases hv : ThemeMgr.validateThemeConfig c <;> simp [hv, hh]
  · intro hok hname
    by_cases hv : ThemeMgr.validateThemeConfig c
    case neg => unfold ThemeMgr.registerTheme at hok; simp [hv] at hok
    by_cases hh : ThemeMgr.mapHas s.themes c.name
    case pos => unfold ThemeMgr.registerTheme at hok; simp [hv, hh] at hok
    cases hm : c.mainModule with
    | none =>
      unfold ThemeMgr.registerTheme at hok
      rw [hm] at hok
      simp [hv, hh] at hok
    | some m =>
      by_cases hi : m.initializeOk
      case neg =>
        unfold ThemeMgr.registerTheme at hok
        rw [hm] at hok
        simp [hv, hh, hi] at hok
      have hEq : ThemeMgr.registerTheme c s =
          ({ s with themes := s.themes ++ [(c.name, ThemeMgr.themeDataOf c m)] },
           [ThemeMgr.LifeEvent.initializeCall c.name], true) := by
        unfold ThemeMgr.registerTheme
        rw [if_pos hv, if_neg (by simp [hh]), hm]
        dsimp only
        rw [if_pos hi]
      rw [hEq]
      dsimp only
      constructor
      · have h0 : ThemeMgr.countKey s.themes c.name = 0 :=
          countKey_eq_zero_of_not_has s.themes c.name (by simpa using hh)
        unfold ThemeMgr.countKey at h0 ⊢
        rw [List.filter_append, List.length_append, h0]
        simp
      · by_cases hv2 : ThemeMgr.validateThemeConfig c2
        · unfold ThemeMgr.registerTheme
          rw [if_pos hv2, if_pos]
          rw [hname]
          exact mapHas_append_self s.themes c.name _
        · unfold ThemeMgr.registerTheme
          rw [if_neg hv2]

/-- Witness for claim C7 at a concrete input: registering a valid config
twice into an empty registry. -/
theorem register_rejects_invalid_and_duplicate_witness :
    ThemeMgr.countKey
      (ThemeMgr.registerTheme ThemeMgr.validCfg ThemeMgr.emptyTM).1.themes
      ThemeMgr.validCfg.name = 1 ∧
    ThemeMgr.registerTheme ThemeMgr.validCfg
        (ThemeMgr.registerTheme ThemeMgr.validCfg ThemeMgr.emptyTM).1 =
      ((ThemeMgr.registerTheme ThemeMgr.validCfg ThemeMgr.emptyTM).1, [], false) :=
  (register_rejects_invalid_and_duplicate ThemeMgr.validCfg ThemeMgr.validCfg
    ThemeMgr.emptyTM).2.2 (by decide) rfl

/-- Helper: filtering with a weaker predicate does not change the first
match of a stronger one. -/
theorem find?_filter_of_imp {α : Type} (l : List α) (p q : α → Bool)
    (hpq : ∀ x, p x = true → q x = true) :
    (l.filter q).find? p = l.find? p := by
  induction l with
  | nil => rfl
  | cons x xs ih =>
    by_cases hq : q x = true
    · rw [List.filter_cons_of_pos hq]
      by_cases hp : p x = true
      · rw [List.find?_cons_of_pos _ hp, List.find?_cons_of_pos _ hp]
      · rw [List.find?_cons_of_neg _ hp, List.find?_cons_of_neg _ hp, ih]
    · have hp : ¬p x = true := fun h => hq (hpq x h)
      rw [List.filter_cons_of_neg hq, List.find?_cons_of_neg _ hp, ih]

/-- Helper: reading a key from a JS object spread `{...a, ...b}` yields
`b`'s value when `b` has the key and `a`'s value otherwise. -/
theorem objGet_spread (a b : ThemeMgr.SettingsMap) (k : String) :
    ThemeMgr.objGet (ThemeMgr.spread a b) k =
      match ThemeMgr.objGet b k with
      | some v => some v
      | none => ThemeMgr.objGet a k := by
  unfold ThemeMgr.objGet ThemeMgr.spread
  rw [List.find?_append]
  cases hb : List.find? (fun p => p.1 = k) b with
  | some w =>
    have hw : w.1 = k := by simpa using List.find?_some hb
    have hmem : w ∈ b := List.mem_of_find?_eq_some hb
    have ha : List.find? (fun p => p.1 = k)
        (List.filter (fun p => !(List.any b (fun q => q.1 = p.1))) a) = none := by
      rw [List.find?_eq_none]
      intro x hx
      have hkeep := (List.mem_filter.mp hx).2
      simp only [decide_eq_true_eq]
      intro hxk
      have : List.any b (fun q => decide (q.1 = x.1)) = true :=
        List.any_eq_true.mpr ⟨w, hmem, by simp [hw, hxk]⟩
      simp [this] at hkeep
    rw [ha]
    simp [Option.or]
  | none =>
    have hnb : ∀ q ∈ b, ¬(q.1 = k) := by
      intro q hq
      have := List.find?_eq_none.mp hb q hq
      simpa using this
    rw [find?_filter_of_imp a (fun p => p.1 = k)
      (fun p => !(List.any b (fun q => q.1 = p.1)))]
    · cases List.find? (fun p => p.1 = k) a <;> simp [Option.or]
    · intro x hx
      simp only [decide_eq_true_eq] at hx
      simp only [Bool.not_eq_true', List.any_eq_false]
      intro q hq
      simp [hx, hnb q hq]

/-- Helper: after a keyed update, reading the written key yields the
written value. -/
theorem mapGet_mapSet_self {α : Type} (m : List (String × α)) (k : String) (v : α) :
    ThemeMgr.mapGet (ThemeMgr.mapSet m k v) k = some v := by
  unfold ThemeMgr.mapSet
  by_cases h : ThemeMgr.mapHas m k
  · rw [if_pos h]
    unfold ThemeMgr.mapHas ThemeMgr.mapGet at h
    unfold ThemeMgr.mapGet
    induction m with
    | nil => simp at h
    | cons x xs ih =>
      by_cases hx : x.1 = k
      · rw [List.map_cons, if_pos hx, List.find?_cons_of_pos _ (by simp)]
        simp
      · rw [List.map_cons, if_neg hx, List.find?_cons_of_neg _ (by simpa using hx)]
        apply ih
        rw [List.find?_cons_of_neg _ (by simpa using hx)] at h
        exact h
  · rw [if_neg h]
    unfold ThemeMgr.mapHas ThemeMgr.mapGet at h
    unfold ThemeMgr.mapGet
    rw [List.find?_append]
    cases hfind : List.find? (fun p => p.1 = k) m with
    | some w => rw [hfind] at h; simp at h
    | none => simp [Option.or, List.find?_cons]

/-- Helper: for a registered theme, `updateThemeSettings` only replaces
the persisted settings object stored under the theme's name. -/
theorem updateThemeSettings_state (s : ThemeMgr.TMState) (n : String)
    (td : ThemeMgr.ThemeData) (p : ThemeMgr.SettingsMap)
    (hreg : ThemeMgr.mapGet s.themes n = some td) :
    (ThemeMgr.updateThemeSettings (some n) p s).1 =
      { s with store := { s.store with
          themeSettings := ThemeMgr.mapSet s.store.themeSettings n p } } := by
  unfold ThemeMgr.updateThemeSettings
  dsimp only
  rw [hreg]
  dsimp only
  by_cases h1 : td.mainModule.hasUpdateSettings <;>
    by_cases h2 : td.mainModule.updateSettingsOk <;>
      simp [h1, h2]

/-- Claim C9: for a registered theme `n`, `updateThemeSettings(n, p)`
followed by `getThemeSettings(n)` returns the patch merged over the
theme's compiled defaults: every key of `p` reads back with `p`'s value
(the persisted layer wins) and every other key reads its compiled
default. -/
theorem settings_roundtrip (s : ThemeMgr.TMState) (n : String)
    (td : ThemeMgr.ThemeData) (p : ThemeMgr.SettingsMap) (k : String)
    (hreg : ThemeMgr.mapGet s.themes n = some td) (hname : td.name = n) :
    ThemeMgr.objGet
        (ThemeMgr.getThemeSettings (some n)
          (ThemeMgr.updateThemeSettings (some n) p s).1) k =
      match ThemeMgr.objGet p k with
      | some v => some v
      | none => ThemeMgr.objGet td.settings k := by
  rw [updateThemeSettings_state s n td p hreg]
  unfold ThemeMgr.getThemeSettings
  dsimp only
  rw [hreg]
  dsimp only
  rw [hname, mapGet_mapSet_self]
  dsimp only [Option.getD]
  exact objGet_spread td.settings p k

/-- Witness for claim C9 at a concrete input: patch `{x: 1}` over the
defaults `{x: 0, y: 7}` of theme `a`. -/
theorem settings_roundtrip_witness :
    ThemeMgr.objGet
        (ThemeMgr.getThemeSettings (some "a")
          (ThemeMgr.updateThemeSettings (some "a") [("x", 1)]
            ThemeMgr.freshState).1) "x" = some 1 ∧
    ThemeMgr.objGet
        (ThemeMgr.getThemeSettings (some "a")
          (ThemeMgr.updateThemeSettings (some "a") [("x", 1)]
            ThemeMgr.freshState).1) "y" = some 7 := by
  have hx := settings_roundtrip ThemeMgr.freshState "a" ThemeMgr.tdA
    [("x", 1)] "x" (by decide) rfl
  have hy := settings_roundtrip ThemeMgr.freshState "a" ThemeMgr.tdA
    [("x", 1)] "y" (by decide) rfl
  exact ⟨by simpa using hx, by simpa using hy⟩

/-- Claim C1: from a state with no active theme and distinct registered
themes `a` and `b` whose activations succeed, the call sequence
`activateTheme a` then `activateTheme b` reports success twice, leaves
exactly `b` Active, produces the lifecycle trace
`[activate a, deactivate a, activate b]` — so `a`'s `deactivate` runs
exactly once, before `b`'s `activate` — and in every state of the model
at most one of `a`, `b` is Active (the Active Theme Pointer holds at most
one descriptor). -/
theorem activate_sequence_single_active (s : ThemeMgr.TMState) (a b : String)
    (tda tdb : ThemeMgr.ThemeData)
    (hab : a ≠ b)
    (h0 : s.activeTheme = none)
    (ha : ThemeMgr.mapGet s.themes a = some tda)
    (hb : ThemeMgr.mapGet s.themes b = some tdb)
    (hna : tda.name = a) (hnb : tdb.name = b)
    (haOk : tda.mainModule.activateOk = true)
    (hbOk : tdb.mainModule.activateOk = true) :
    (ThemeMgr.activateTheme a s).2.2 = true ∧
    (ThemeMgr.activateTheme b (ThemeMgr.activateTheme a s).1).2.2 = true ∧
    ThemeMgr.isActiveName
      (ThemeMgr.activateTheme b (ThemeMgr.activateTheme a s).1).1 b ∧
    ¬ ThemeMgr.isActiveName
      (ThemeMgr.activateTheme b (ThemeMgr.activateTheme a s).1).1 a ∧
    (ThemeMgr.activateTheme a s).2.1 ++
        (ThemeMgr.activateTheme b (ThemeMgr.activateTheme a s).1).2.1 =
      [ThemeMgr.LifeEvent.activateCall a, ThemeMgr.LifeEvent.deactivateCall a,
       ThemeMgr.LifeEvent.activateCall b] ∧
    (∀ s2 : ThemeMgr.TMState,
      ¬ (ThemeMgr.isActiveName s2 a ∧ ThemeMgr.isActiveName s2 b)) := by
  have h1 : ThemeMgr.activateTheme a s =
      ({ s with
          activeTheme := some tda
          store := { s.store with currentTheme := some a } },
       [ThemeMgr.LifeEvent.activateCall a], true) := by
    unfold ThemeMgr.activateTheme
    rw [ha]
    simp [h0, haOk]
  have h2 : ThemeMgr.activateTheme b
      ({ s with
          activeTheme := some tda
          store := { s.store with currentTheme := some a } } : ThemeMgr.TMState) =
      ({ s with
          activeTheme := some tdb
          store := { s.store with currentTheme := some b } },
       [ThemeMgr.LifeEvent.deactivateCall a, ThemeMgr.LifeEvent.activateCall b],
       true) := by
    unfold ThemeMgr.activateTheme ThemeMgr.deactivateTheme
    dsimp only
    rw [hb]
    by_cases hd : tda.mainModule.deactivateOk = true <;>
      simp [hd, hbOk, hna]
  rw [h1]
  dsimp only
  rw [h2]
  refine ⟨rfl, rfl, ⟨tdb, rfl, hnb⟩, ?_, rfl, ?_⟩
  · rintro ⟨td, htd, hn⟩
    have : td = tdb := by
      simpa using htd.symm
    rw [this, hnb] at hn
    exact hab hn.symm
  · rintro s2 ⟨⟨t1, e1, n1⟩, ⟨t2, e2, n2⟩⟩
    rw [e1] at e2
    have : t1 = t2 := by simpa using e2
    rw [this, n2] at n1
    exact hab n1.symm

/-- Witness for claim C1 at a concrete input: themes `a` and `b`
registered, none active. -/
theorem activate_sequence_single_active_witness :
    (ThemeMgr.activateTheme "a" ThemeMgr.freshState).2.1 ++
        (ThemeMgr.activateTheme "b"
          (ThemeMgr.activateTheme "a" ThemeMgr.freshState).1).2.1 =
      [ThemeMgr.LifeEvent.activateCall "a", ThemeMgr.LifeEvent.deactivateCall "a",
       ThemeMgr.LifeEvent.activateCall "b"] ∧
    ThemeMgr.isActiveName
      (ThemeMgr.activateTheme "b"
        (ThemeMgr.activateTheme "a" ThemeMgr.freshState).1).1 "b" := by
  have h := activate_sequence_single_active ThemeMgr.freshState "a" "b"
    ThemeMgr.tdA ThemeMgr.tdB (by decide) rfl (by decide) (by decide) rfl rfl rfl rfl
  exact ⟨h.2.2.2.2.1, h.2.2.1⟩

set_option maxRecDepth 400000 in
/-- Claim C6: whenever the timer completes, the events published by
`_handleTimerComplete` start with `timer-completed` immediately followed
by the `work-started`/`break-started` event of the entered phase, whose
state carries `timeRemaining` equal to the entered phase's configured
minutes times 60; and in the concrete scenario `setWorkTime(25)`,
`start()`, 1500 one-second ticks with no pause, the trace contains
exactly one `timer-completed` event — `{wasBreak: false, nextMode:
"break"}`, at position 1502 — immediately followed by `break-started`
with `timeRemaining = breakTime * 60`. -/
theorem timer_completion_phase_transition :
    (∀ p : Pomodoro.Service, ∃ st : Pomodoro.PomState,
      (Pomodoro.handleTimerComplete p).2.take 2 =
        [Pomodoro.PomEvent.timerCompleted p.state.isBreak
            (if p.state.isBreak then "work" else "break"),
         if p.state.isBreak then Pomodoro.PomEvent.workStarted st
         else Pomodoro.PomEvent.breakStarted st] ∧
      st.timeRemaining =
        (if p.state.isBreak then p.state.workTime else p.state.breakTime) * 60) ∧
    Pomodoro.scenarioRun.2.filter Pomodoro.isCompleted =
      [Pomodoro.PomEvent.timerCompleted false "break"] ∧
    Pomodoro.scenarioRun.2.get? 1502 =
      some (Pomodoro.PomEvent.timerCompleted false "break") ∧
    (∃ st : Pomodoro.PomState,
      Pomodoro.scenarioRun.2.get? 1503 =
        some (Pomodoro.PomEvent.breakStarted st) ∧
      st.timeRemaining = st.breakTime * 60 ∧ st.breakTime = 5) := by
  refine ⟨?_, by decide, by decide, ?_⟩
  · intro p
    refine ⟨{ p.state with
        isBreak := !p.state.isBreak
        timeRemaining :=
          (if p.state.isBreak then p.state.workTime else p.state.breakTime) * 60 },
      ?_, rfl⟩
    unfold Pomodoro.handleTimerComplete
    dsimp only
    by_cases hib : p.state.isBreak = true <;> simp [hib]
  · refine ⟨
      { isActive := true
        isBreak := true
        timeRemaining := 300
        workTime := 25
        breakTime := 5
        workProjectId := none
        breakProjectId := none
        projectTaskMemory := [] }, ?_, ?_, ?_⟩ <;> decide

end TaskOverlay
